import Mathlib

/-!
Verification of the `bitdefender_msp` HTTP client (files
`bitdefender_msp/client.py` and `bitdefender_msp/exceptions.py`).

The development shallowly embeds the client: JSON values are an inductive
type, each endpoint method is a pure function from the client state and its
arguments to the request it hands to the shared dispatch routine (or to the
local `ValueError` raised by `create_subscriber`), and the dispatch routine
`_request` is a function from the transport's response to its outcome
(returned mapping, raised `BitdefenderMSPError`, or the `AttributeError`
that Python raises when `.get` is called on a non-dict value).
-/

/-- JSON values, as produced by `response.json()` and consumed by the
request bodies the client builds. Objects are association lists of
string keys to values. -/
inductive Json where
  | null
  | bool (b : Bool)
  | int (n : Int)
  | str (s : String)
  | arr (xs : List Json)
  | obj (fields : List (String × Json))

/-- Python `dict.get(key, default)` on an association list: the value of the
first binding of `key`, or `default` when the key is absent. -/
def lookupD : List (String × Json) → String → Json → Json
  | [], _, d => d
  | (k, v) :: rest, key, d => if k = key then v else lookupD rest key d

/-- Python truthiness test used by the client on optional string arguments:
`if x:` succeeds exactly when the argument is present and non-empty. -/
def strTruthy : Option String → Bool
  | none => false
  | some s => !(s = "")

/-- The key/value bindings contributed by one `if x: data[key] = x`
statement of the client: a singleton binding when the optional string is
present and non-empty, nothing otherwise. -/
def optField (key : String) (v : Option String) : List (String × Json) :=
  match v with
  | some s => if s = "" then [] else [(key, Json.str s)]
  | none => []

/-- An HTTP response as seen by `_request`: the status code and the result
of `response.json()` — `none` when the body does not parse as JSON (the
`ValueError` branch), `some j` when it parses to the value `j`. -/
structure HttpResponse where
  status : Nat
  body : Option Json

/-- The `requests` library's `Response.ok` predicate: true exactly when the
status code is below 400. -/
def respOk (status : Nat) : Bool := status < 400

/-- Outcome of the dispatch routine `_request` on a response:
`success data` is a normal return of the parsed mapping;
`apiError message code status` is `raise BitdefenderMSPError(message, code,
status)` with the values extracted from the body;
`attributeError` is the unhandled `AttributeError` Python raises when
`data.get` is evaluated with `data` not a dict. -/
inductive RequestResult where
  | success (data : Json)
  | apiError (message : Json) (code : Json) (status : Nat)
  | attributeError

/-- The shared dispatch routine `BitdefenderMSPClient._request`, from the
point the transport's response is available: parse the body as JSON with
`{}` as the fallback on parse failure; on an ok status return the parsed
data; otherwise read `message` (default "Unknown error") and `code`
(default 0) from it and raise `BitdefenderMSPError` — reading is `.get`,
defined only when the parsed data is a dict. -/
def _request (resp : HttpResponse) : RequestResult :=
  let data := match resp.body with
    | some j => j
    | none => Json.obj []
  if respOk resp.status then
    RequestResult.success data
  else
    match data with
    | Json.obj fields =>
        RequestResult.apiError
          (lookupD fields "message" (Json.str "Unknown error"))
          (lookupD fields "code" (Json.int 0))
          resp.status
    | _ => RequestResult.attributeError

/-- The exception type of `bitdefender_msp/exceptions.py`, with the field
types of its annotated constructor signature
`__init__(self, message: str, error_code: int = 0, status_code: int = 0)`;
the constructor stores all three arguments as attributes. -/
structure BitdefenderMSPError where
  message : String
  error_code : Int
  status_code : Int

/-- The string form the constructor passes to `Exception.__init__`, i.e.
the argument of `super().__init__(f"...")`. -/
def BitdefenderMSPError.strForm (e : BitdefenderMSPError) : String :=
  "[" ++ toString e.status_code ++ "] " ++ toString e.error_code ++ ": " ++ e.message

/-- Client state: the API key and the session headers the constructor
installs via `self.session.headers.update({...})`. The underlying session
also carries the transport library's own defaults; the three entries below
are the ones this code writes (`update` overwrites the library's `Accept`
default and adds the other two). -/
structure Client where
  api_key : String
  headers : List (String × String)

/-- `BitdefenderMSPClient.__init__`: store the key and set the session
headers. -/
def clientInit (api_key : String) : Client :=
  { api_key := api_key
    headers := [("Authorization", "ApiKey " ++ api_key),
                ("Content-Type", "application/json"),
                ("Accept", "application/json")] }

/-- The request an endpoint method hands to `_request`: HTTP method, the
endpoint path (relative to `BASE_URL`), optional query parameters
(`params=` keyword) and optional JSON body (`json=` keyword). -/
structure Request where
  httpMethod : String
  endpoint : String
  params : Option (List (String × Json))
  body : Option Json

/-- What an endpoint method does before any network activity: either reach
the dispatch routine with a constructed request, or raise a local
`ValueError` (only `create_subscriber` does the latter). -/
inductive ClientCall where
  | dispatch (req : Request)
  | valueError (msg : String)

/-- `list_subscribers(page=1, limit=20, **filters)`:
GET `/v1/subscribers` with the pagination parameters and the caller's
filters merged into the query parameters. -/
def list_subscribers (c : Client) (page limit : Int)
    (filters : List (String × Json)) : Client × ClientCall :=
  (c, ClientCall.dispatch
    { httpMethod := "GET"
      endpoint := "/v1/subscribers"
      params := some ([("page", Json.int page), ("limit", Json.int limit)] ++ filters)
      body := none })

/-- The body `create_subscriber` builds: one optional field per argument,
in source order. -/
def createSubscriberBody (email phone username external_subscriber_id lang :
    Option String) : List (String × Json) :=
  optField "email" email ++ optField "phone" phone ++
  optField "username" username ++
  optField "external_subscriber_id" external_subscriber_id ++
  optField "lang" lang

/-- `create_subscriber(email, phone, username, external_subscriber_id,
lang)`: build the body from the truthy arguments; if the body is empty
raise `ValueError`, otherwise POST `/v1/subscribers` with it. -/
def create_subscriber (c : Client)
    (email phone username external_subscriber_id lang : Option String) :
    Client × ClientCall :=
  let data := createSubscriberBody email phone username external_subscriber_id lang
  if data.isEmpty then
    (c, ClientCall.valueError
      "At least one of email, phone, username, or external_subscriber_id must be provided")
  else
    (c, ClientCall.dispatch
      { httpMethod := "POST"
        endpoint := "/v1/subscribers"
        params := none
        body := some (Json.obj data) })

/-- `get_subscriber(subscriber_id)`: GET `/v1/subscribers/{id}`. -/
def get_subscriber (c : Client) (subscriber_id : String) : Client × ClientCall :=
  (c, ClientCall.dispatch
    { httpMethod := "GET"
      endpoint := "/v1/subscribers/" ++ subscriber_id
      params := none
      body := none })

/-- `delete_subscriber(subscriber_id)`: DELETE `/v1/subscribers/{id}`. -/
def delete_subscriber (c : Client) (subscriber_id : String) : Client × ClientCall :=
  (c, ClientCall.dispatch
    { httpMethod := "DELETE"
      endpoint := "/v1/subscribers/" ++ subscriber_id
      params := none
      body := none })

/-- `unmanage_subscriber(subscriber_id)`: PATCH `/v1/subscribers/{id}` with
body `{"unmanage": True}`. -/
def unmanage_subscriber (c : Client) (subscriber_id : String) : Client × ClientCall :=
  (c, ClientCall.dispatch
    { httpMethod := "PATCH"
      endpoint := "/v1/subscribers/" ++ subscriber_id
      params := none
      body := some (Json.obj [("unmanage", Json.bool true)]) })

/-- The body `add_subscription` builds: `product_id` always; `trial` only
when the boolean is true (with value `True`); the two optional strings only
when truthy. -/
def addSubscriptionBody (product_id : String) (trial : Bool)
    (external_subscription_id reservation_id : Option String) :
    List (String × Json) :=
  [("product_id", Json.str product_id)] ++
  (if trial then [("trial", Json.bool trial)] else []) ++
  optField "external_subscription_id" external_subscription_id ++
  optField "reservation_id" reservation_id

/-- `add_subscription(subscriber_id, product_id, trial=False,
external_subscription_id=None, reservation_id=None)`:
POST `/v1/subscribers/{id}/subscriptions` with the built body. -/
def add_subscription (c : Client) (subscriber_id product_id : String)
    (trial : Bool) (external_subscription_id reservation_id : Option String) :
    Client × ClientCall :=
  (c, ClientCall.dispatch
    { httpMethod := "POST"
      endpoint := "/v1/subscribers/" ++ subscriber_id ++ "/subscriptions"
      params := none
      body := some (Json.obj (addSubscriptionBody product_id trial
        external_subscription_id reservation_id)) })

/-- `get_subscription(subscriber_id, subscription_id)`:
GET `/v1/subscribers/{id}/subscriptions/{sid}`. -/
def get_subscription (c : Client) (subscriber_id subscription_id : String) :
    Client × ClientCall :=
  (c, ClientCall.dispatch
    { httpMethod := "GET"
      endpoint := "/v1/subscribers/" ++ subscriber_id ++ "/subscriptions/" ++ subscription_id
      params := none
      body := none })

/-- `suspend_subscriptions(subscriber_id, suspended=True)`:
PATCH `/v1/subscribers/{id}/subscriptions` with body
`{"suspended": suspended}`. -/
def suspend_subscriptions (c : Client) (subscriber_id : String)
    (suspended : Bool) : Client × ClientCall :=
  (c, ClientCall.dispatch
    { httpMethod := "PATCH"
      endpoint := "/v1/subscribers/" ++ subscriber_id ++ "/subscriptions"
      params := none
      body := some (Json.obj [("suspended", Json.bool suspended)]) })

/-- `delete_subscription(subscriber_id, subscription_id)`:
DELETE `/v1/subscribers/{id}/subscriptions/{sid}`. -/
def delete_subscription (c : Client) (subscriber_id subscription_id : String) :
    Client × ClientCall :=
  (c, ClientCall.dispatch
    { httpMethod := "DELETE"
      endpoint := "/v1/subscribers/" ++ subscriber_id ++ "/subscriptions/" ++ subscription_id
      params := none
      body := none })

/-- `delete_all_subscriptions(subscriber_id)`:
DELETE `/v1/subscribers/{id}/subscriptions`. -/
def delete_all_subscriptions (c : Client) (subscriber_id : String) :
    Client × ClientCall :=
  (c, ClientCall.dispatch
    { httpMethod := "DELETE"
      endpoint := "/v1/subscribers/" ++ subscriber_id ++ "/subscriptions"
      params := none
      body := none })

/-- `suspend_subscription(subscriber_id, subscription_id, suspended=True)`:
PATCH `/v1/subscribers/{id}/subscriptions/{sid}` with body
`{"suspended": suspended}`. -/
def suspend_subscription (c : Client) (subscriber_id subscription_id : String)
    (suspended : Bool) : Client × ClientCall :=
  (c, ClientCall.dispatch
    { httpMethod := "PATCH"
      endpoint := "/v1/subscribers/" ++ subscriber_id ++ "/subscriptions/" ++ subscription_id
      params := none
      body := some (Json.obj [("suspended", Json.bool suspended)]) })

/-- The `convert` value of `convert_trial_subscription`:
`product_id if product_id else True`, i.e. the string when it is present
and non-empty, `True` otherwise. -/
def convertValue : Option String → Json
  | none => Json.bool true
  | some s => if s = "" then Json.bool true else Json.str s

/-- `convert_trial_subscription(subscriber_id, subscription_id,
product_id=None)`: PATCH `/v1/subscribers/{id}/subscriptions/{sid}` with
body `{"convert": product_id if product_id else True}`. -/
def convert_trial_subscription (c : Client)
    (subscriber_id subscription_id : String) (product_id : Option String) :
    Client × ClientCall :=
  (c, ClientCall.dispatch
    { httpMethod := "PATCH"
      endpoint := "/v1/subscribers/" ++ subscriber_id ++ "/subscriptions/" ++ subscription_id
      params := none
      body := some (Json.obj [("convert", convertValue product_id)]) })

/-- `replace_subscription(subscriber_id, subscription_id, product_id)`:
PUT `/v1/subscribers/{id}/subscriptions/{sid}` with body
`{"product_id": product_id}`. -/
def replace_subscription (c : Client) (subscriber_id subscription_id product_id : String) :
    Client × ClientCall :=
  (c, ClientCall.dispatch
    { httpMethod := "PUT"
      endpoint := "/v1/subscribers/" ++ subscriber_id ++ "/subscriptions/" ++ subscription_id
      params := none
      body := some (Json.obj [("product_id", Json.str product_id)]) })

/-- Route of a client call: it reaches the dispatch routine with the given
HTTP method and endpoint path (for some query parameters and body). -/
def routeIs (call : ClientCall) (m p : String) : Prop :=
  ∃ ps b, call = ClientCall.dispatch { httpMethod := m, endpoint := p, params := ps, body := b }

/-- Whether a JSON value is an object, i.e. whether the Python value it
embeds is a dict (so that `.get` is defined on it). -/
def Json.isObj : Json → Bool
  | .obj _ => true
  | _ => false

theorem lookupD_eq_lookup (fields : List (String × Json)) (key : String) (d : Json) :
    lookupD fields key d = (List.lookup key fields).getD d := by
  induction fields with
  | nil => rfl
  | cons p rest ih =>
    obtain ⟨k, v⟩ := p
    by_cases h : k = key
    · simp [lookupD, List.lookup, h]
    · rw [lookupD, if_neg h, List.lookup, ih]
      rw [show (key == k) = false from beq_eq_false_iff_ne.mpr (Ne.symm h)]

theorem mem_optField (k key : String) (v : Option String) (j : Json) :
    (k, j) ∈ optField key v ↔ k = key ∧ ∃ s, v = some s ∧ s ≠ "" ∧ j = Json.str s := by
  cases v with
  | none => simp [optField]
  | some s => by_cases hs : s = "" <;> simp [optField, hs]

/-- Claim C1: on every non-ok response whose body parses to a JSON object,
`_request` raises the API error built from the parsed body — message from
the `message` field with default "Unknown error", code from the `code`
field with default 0, and the HTTP status verbatim; in particular a 404
response with body `message = "not found", code = 42` raises the error
with exactly those values. -/
theorem nonOk_raises_api_error :
    (∀ (status : Nat) (fields : List (String × Json)), respOk status = false →
      _request { status := status, body := some (Json.obj fields) } =
        RequestResult.apiError
          ((List.lookup "message" fields).getD (Json.str "Unknown error"))
          ((List.lookup "code" fields).getD (Json.int 0))
          status) ∧
    _request { status := 404,
               body := some (Json.obj [("message", Json.str "not found"),
                                       ("code", Json.int 42)]) } =
      RequestResult.apiError (Json.str "not found") (Json.int 42) 404 := by
  constructor
  · intro status fields h
    simp [_request, h, lookupD_eq_lookup]
  · rfl

/-- Witness for C1: a concrete 500 response with an empty object body
raises the error with the default message and code. -/
theorem nonOk_raises_api_error_witness :
    _request { status := 500, body := some (Json.obj []) } =
      RequestResult.apiError (Json.str "Unknown error") (Json.int 0) 500 :=
  nonOk_raises_api_error.1 500 [] (by decide)

/-- Claim C3: a body that fails to parse as JSON is treated exactly as the
empty mapping; a 200 response with a non-JSON body returns the empty
mapping rather than raising; and every 2xx response returns the parsed
mapping without raising. -/
theorem parse_failure_empty_mapping :
    (∀ status : Nat,
      _request { status := status, body := none } =
        _request { status := status, body := some (Json.obj []) }) ∧
    _request { status := 200, body := none } = RequestResult.success (Json.obj []) ∧
    (∀ (status : Nat) (body : Option Json), 200 ≤ status → status < 300 →
      _request { status := status, body := body } =
        RequestResult.success (body.getD (Json.obj []))) := by
  refine ⟨fun status => rfl, rfl, ?_⟩
  intro status body h1 h2
  have hok : respOk status = true := by
    simp only [respOk, decide_eq_true_eq]
    omega
  cases body <;> simp [_request, hok, Option.getD]

/-- Witness for C3: a concrete 204 response whose body parses to an empty
JSON array is returned as-is without raising. -/
theorem parse_failure_empty_mapping_witness :
    _request { status := 204, body := some (Json.arr []) } =
      RequestResult.success (Json.arr []) :=
  parse_failure_empty_mapping.2.2 204 (some (Json.arr [])) (by decide) (by decide)

/-- Claim C10: on a non-ok response whose body parses to a JSON value that
is not an object, `_request` ends in the unhandled `AttributeError` from
`data.get`, not in the structured API error; in particular this happens
for a 404 response with a JSON-array body. -/
theorem nonOk_nonObject_attribute_error :
    (∀ (status : Nat) (j : Json), respOk status = false → j.isObj = false →
      _request { status := status, body := some j } = RequestResult.attributeError) ∧
    _request { status := 404, body := some (Json.arr [Json.int 1]) } =
      RequestResult.attributeError := by
  constructor
  · intro status j h hj
    cases j <;> simp [_request, h]
    simp [Json.isObj] at hj
  · rfl

/-- Witness for C10: a concrete 404 response whose body parses to JSON
`null` ends in the unhandled `AttributeError`. -/
theorem nonOk_nonObject_attribute_error_witness :
    _request { status := 404, body := some Json.null } = RequestResult.attributeError :=
  nonOk_nonObject_attribute_error.1 404 Json.null (by decide) (by decide)

/-- Claim C4: every endpoint method reaches the dispatch routine with the
HTTP method and path of the routing table: `list_subscribers` GET
`/v1/subscribers`; `create_subscriber` POST `/v1/subscribers` (unless it
raises its local `ValueError`); `get_subscriber` GET, `delete_subscriber`
DELETE and `unmanage_subscriber` PATCH on `/v1/subscribers/{id}`;
`add_subscription` POST, `suspend_subscriptions` PATCH,
`delete_all_subscriptions` DELETE on `/v1/subscribers/{id}/subscriptions`;
`get_subscription` GET, `delete_subscription` DELETE,
`suspend_subscription` PATCH, `convert_trial_subscription` PATCH and
`replace_subscription` PUT on `/v1/subscribers/{id}/subscriptions/{sid}`. -/
theorem route_fidelity :
    ∀ (c : Client) (sid sub pid : String) (page limit : Int)
      (filters : List (String × Json)) (e p u x l ext resv pidOpt : Option String)
      (tr susp : Bool),
    routeIs (list_subscribers c page limit filters).2 "GET" "/v1/subscribers" ∧
    ((create_subscriber c e p u x l).2 = ClientCall.valueError
        "At least one of email, phone, username, or external_subscriber_id must be provided" ∨
      routeIs (create_subscriber c e p u x l).2 "POST" "/v1/subscribers") ∧
    routeIs (get_subscriber c sid).2 "GET" ("/v1/subscribers/" ++ sid) ∧
    routeIs (delete_subscriber c sid).2 "DELETE" ("/v1/subscribers/" ++ sid) ∧
    routeIs (unmanage_subscriber c sid).2 "PATCH" ("/v1/subscribers/" ++ sid) ∧
    routeIs (add_subscription c sid pid tr ext resv).2 "POST"
      ("/v1/subscribers/" ++ sid ++ "/subscriptions") ∧
    routeIs (get_subscription c sid sub).2 "GET"
      ("/v1/subscribers/" ++ sid ++ "/subscriptions/" ++ sub) ∧
    routeIs (suspend_subscriptions c sid susp).2 "PATCH"
      ("/v1/subscribers/" ++ sid ++ "/subscriptions") ∧
    routeIs (delete_subscription c sid sub).2 "DELETE"
      ("/v1/subscribers/" ++ sid ++ "/subscriptions/" ++ sub) ∧
    routeIs (delete_all_subscriptions c sid).2 "DELETE"
      ("/v1/subscribers/" ++ sid ++ "/subscriptions") ∧
    routeIs (suspend_subscription c sid sub susp).2 "PATCH"
      ("/v1/subscribers/" ++ sid ++ "/subscriptions/" ++ sub) ∧
    routeIs (convert_trial_subscription c sid sub pidOpt).2 "PATCH"
      ("/v1/subscribers/" ++ sid ++ "/subscriptions/" ++ sub) ∧
    routeIs (replace_subscription c sid sub pid).2 "PUT"
      ("/v1/subscribers/" ++ sid ++ "/subscriptions/" ++ sub) := by
  intro c sid sub pid page limit filters e p u x l ext resv pidOpt tr susp
  refine ⟨⟨_, _, rfl⟩, ?_, ⟨_, _, rfl⟩, ⟨_, _, rfl⟩, ⟨_, _, rfl⟩, ⟨_, _, rfl⟩,
    ⟨_, _, rfl⟩, ⟨_, _, rfl⟩, ⟨_, _, rfl⟩, ⟨_, _, rfl⟩, ⟨_, _, rfl⟩,
    ⟨_, _, rfl⟩, ⟨_, _, rfl⟩⟩
  by_cases hd : (createSubscriberBody e p u x l).isEmpty
  · exact Or.inl (by simp [create_subscriber, hd])
  · exact Or.inr ⟨none, some (Json.obj (createSubscriberBody e p u x l)),
      by simp [create_subscriber, hd]⟩

/-- Claim C2 (failing input): calling `create_subscriber` with all four
identity fields absent but `lang` populated does not raise the documented
`ValueError`; the body check `if not data` also counts `lang`, so the call
reaches the dispatch routine with the body holding only `lang`, contrary
to the method docstring which demands one of email, phone, username or
external_subscriber_id. -/
theorem create_subscriber_lang_only_dispatches :
    (create_subscriber (clientInit "k") none none none none (some "en_US")).2 =
      ClientCall.dispatch
        { httpMethod := "POST", endpoint := "/v1/subscribers", params := none,
          body := some (Json.obj [("lang", Json.str "en_US")]) } ∧
    ∀ msg, (create_subscriber (clientInit "k") none none none none (some "en_US")).2 ≠
      ClientCall.valueError msg := by
  have h1 : (create_subscriber (clientInit "k") none none none none (some "en_US")).2 =
      ClientCall.dispatch
        { httpMethod := "POST", endpoint := "/v1/subscribers", params := none,
          body := some (Json.obj [("lang", Json.str "en_US")]) } := rfl
  refine ⟨h1, ?_⟩
  intro msg hne
  rw [h1] at hne
  exact ClientCall.noConfusion hne

/-- Claim C5: the body of `create_subscriber` binds exactly the keys whose
argument is present and non-empty, each to its given string value; with
only `email` populated the body is the single `email` binding. -/
theorem create_subscriber_body_exact :
    (∀ (email phone username external_subscriber_id lang : Option String)
       (k : String) (j : Json),
      (k, j) ∈ createSubscriberBody email phone username external_subscriber_id lang ↔
        ((k = "email" ∧ ∃ s, email = some s ∧ s ≠ "" ∧ j = Json.str s) ∨
         (k = "phone" ∧ ∃ s, phone = some s ∧ s ≠ "" ∧ j = Json.str s) ∨
         (k = "username" ∧ ∃ s, username = some s ∧ s ≠ "" ∧ j = Json.str s) ∨
         (k = "external_subscriber_id" ∧
           ∃ s, external_subscriber_id = some s ∧ s ≠ "" ∧ j = Json.str s) ∨
         (k = "lang" ∧ ∃ s, lang = some s ∧ s ≠ "" ∧ j = Json.str s))) ∧
    createSubscriberBody (some "a@b.c") none none none none =
      [("email", Json.str "a@b.c")] := by
  refine ⟨?_, rfl⟩
  intro email phone username x lang k j
  simp [createSubscriberBody, List.mem_append, mem_optField]

/-- Claim C6: the body of `add_subscription` always binds `product_id`;
it binds `trial` (to `true`) exactly when the `trial` argument is true,
and binds each of `external_subscription_id` and `reservation_id` exactly
when that argument is present and non-empty; with `trial = false` and no
optional ids the body is the single `product_id` binding. -/
theorem add_subscription_body_exact :
    (∀ (product_id : String) (trial : Bool)
       (external_subscription_id reservation_id : Option String)
       (k : String) (j : Json),
      (k, j) ∈ addSubscriptionBody product_id trial
          external_subscription_id reservation_id ↔
        ((k = "product_id" ∧ j = Json.str product_id) ∨
         (k = "trial" ∧ trial = true ∧ j = Json.bool true) ∨
         (k = "external_subscription_id" ∧
           ∃ s, external_subscription_id = some s ∧ s ≠ "" ∧ j = Json.str s) ∨
         (k = "reservation_id" ∧
           ∃ s, reservation_id = some s ∧ s ≠ "" ∧ j = Json.str s))) ∧
    addSubscriptionBody "p1" false none none = [("product_id", Json.str "p1")] ∧
    addSubscriptionBody "p1" true none none =
      [("product_id", Json.str "p1"), ("trial", Json.bool true)] := by
  refine ⟨?_, rfl, rfl⟩
  intro product_id trial ext resv k j
  cases trial <;> simp [addSubscriptionBody, List.mem_append, mem_optField]

/-- Claim C7 (counterexample): `convert_trial_subscription` with the empty
string as `product_id` sends the body binding `convert` to `true`, not to
the given (empty) product id — the source tests Python truthiness, not
presence, so an empty `product_id` falls back to `True`. -/
theorem convert_trial_empty_product_cex :
    (convert_trial_subscription (clientInit "k") "s1" "u1" (some "")).2 =
      ClientCall.dispatch
        { httpMethod := "PATCH"
          endpoint := "/v1/subscribers/s1/subscriptions/u1"
          params := none
          body := some (Json.obj [("convert", Json.bool true)]) } ∧
    Json.obj [("convert", Json.bool true)] ≠ Json.obj [("convert", Json.str "")] := by
  constructor
  · rfl
  · simp

/-- Claim C7 (amended): `convert_trial_subscription` sends the body
binding `convert` to the product id when that argument is a non-empty
string, and binding `convert` to `true` when the argument is `None` or the
empty string. -/
theorem convert_trial_body :
    ∀ (c : Client) (subscriber_id subscription_id : String),
      (convert_trial_subscription c subscriber_id subscription_id none).2 =
        ClientCall.dispatch
          { httpMethod := "PATCH"
            endpoint := "/v1/subscribers/" ++ subscriber_id ++ "/subscriptions/" ++
              subscription_id
            params := none
            body := some (Json.obj [("convert", Json.bool true)]) } ∧
      ∀ s : String,
        (convert_trial_subscription c subscriber_id subscription_id (some s)).2 =
          ClientCall.dispatch
            { httpMethod := "PATCH"
              endpoint := "/v1/subscribers/" ++ subscriber_id ++ "/subscriptions/" ++
                subscription_id
              params := none
              body := some (Json.obj [("convert",
                if s = "" then Json.bool true else Json.str s)]) } := by
  intro c subscriber_id subscription_id
  exact ⟨rfl, fun s => rfl⟩

/-- Claim C8: the string form of the constructed API error embeds all
three fields as `[<status_code>] <error_code>: <message>`, and the error
object exposes `message`, `error_code` and `status_code` as fields. -/
theorem error_string_form :
    ∀ (m : String) (ec sc : Int),
      (BitdefenderMSPError.mk m ec sc).strForm =
        "[" ++ toString sc ++ "] " ++ toString ec ++ ": " ++ m ∧
      (BitdefenderMSPError.mk m ec sc).message = m ∧
      (BitdefenderMSPError.mk m ec sc).error_code = ec ∧
      (BitdefenderMSPError.mk m ec sc).status_code = sc :=
  fun _ _ _ => ⟨rfl, rfl, rfl, rfl⟩

/-- Claim C9: construction sets the session headers to exactly the
`Authorization: ApiKey <key>`, `Content-Type` and `Accept` entries, so the
`ApiKey` authorization header is looked up on every request; and no
endpoint method changes the client state, so the headers set at
construction are never mutated afterwards. -/
theorem headers_fixed_at_construction :
    ∀ (key : String) (c : Client) (sid sub pid : String) (page limit : Int)
      (filters : List (String × Json)) (e p u x l ext resv pidOpt : Option String)
      (tr susp : Bool),
    (clientInit key).headers =
      [("Authorization", "ApiKey " ++ key),
       ("Content-Type", "application/json"),
       ("Accept", "application/json")] ∧
    List.lookup "Authorization" (clientInit key).headers = some ("ApiKey " ++ key) ∧
    (list_subscribers c page limit filters).1 = c ∧
    (create_subscriber c e p u x l).1 = c ∧
    (get_subscriber c sid).1 = c ∧
    (delete_subscriber c sid).1 = c ∧
    (unmanage_subscriber c sid).1 = c ∧
    (add_subscription c sid pid tr ext resv).1 = c ∧
    (get_subscription c sid sub).1 = c ∧
    (suspend_subscriptions c sid susp).1 = c ∧
    (delete_subscription c sid sub).1 = c ∧
    (delete_all_subscriptions c sid).1 = c ∧
    (suspend_subscription c sid sub susp).1 = c ∧
    (convert_trial_subscription c sid sub pidOpt).1 = c ∧
    (replace_subscription c sid sub pid).1 = c := by
  intro key c sid sub pid page limit filters e p u x l ext resv pidOpt tr susp
  refine ⟨rfl, rfl, rfl, ?_, rfl, rfl, rfl, rfl, rfl, rfl, rfl, rfl, rfl, rfl, rfl⟩
  by_cases hd : (createSubscriberBody e p u x l).isEmpty <;>
    simp [create_subscriber, hd]
